/-
Verification of the search-terminology resolution and gap-detection core of the
marketing-content portal. The Lean definitions below are a shallow embedding of
the Python scripts:

  scripts/diagnose_search.py           (query resolver / diagnoser)
  scripts/run_terminology_migration.py (terminology_map schema and seed data)
  scripts/query_popularity_report.py   (popularity and gap analyzer)
  scripts/health_monitor.py            (health monitor)
  scripts/maintenance_orchestrator.py  (maintenance orchestrator)

Machine reals (Python floats) are modelled by the rationals; database rows by
structures over lists; SQL statement effects by explicit state-passing
functions whose success or failure mirrors the constraints declared in the
migration script. Python `round(x, k)` is modelled by rounding to the nearest
multiple of 10^(-k) (ties differ from float banker's rounding only on exact
half-way values, which none of the statements below depend on).
-/
import Mathlib

namespace Portal

/-! Part 1: Python string primitives, modelled over ASCII. A Lean `String` is
a list of characters, which matches Python's view of `str` for the ASCII data
the scripts manipulate. -/

/-- Python `str.lower` (ASCII model; `Char.toLower` lowercases exactly the
basic latin letters, as CPython does for ASCII input). -/
def lowerStr (s : String) : String := ⟨s.data.map Char.toLower⟩

/-- Whitespace for Python `str.split` and `str.strip`. -/
def pySpace (c : Char) : Bool :=
  c == ' ' || c == '\t' || c == '\n' || c == '\r' || c == '\x0b' || c == '\x0c'

/-- Maximal runs of characters satisfying `p`, accumulator-passing. This is
the common engine behind Python `str.split()` (runs of non-whitespace) and
the regex `\b\w+\b` used by the resolver tokenizer (runs of word chars). -/
def runsAux (p : Char → Bool) : List Char → List Char → List (List Char)
  | [], acc => if acc.isEmpty then [] else [acc.reverse]
  | c :: cs, acc =>
    if p c then runsAux p cs (c :: acc)
    else if acc.isEmpty then runsAux p cs [] else acc.reverse :: runsAux p cs []

/-- Python `str.split()` with no separator: maximal runs of non-whitespace. -/
def pySplit (s : String) : List String :=
  (runsAux (fun c => !pySpace c) s.data []).map String.mk

/-- Python `str.strip()`: drop leading and trailing whitespace. -/
def pyStrip (s : String) : String :=
  ⟨((s.data.dropWhile pySpace).reverse.dropWhile pySpace).reverse⟩

/-- Word characters of the regex class `\w` (ASCII). -/
def isWordChar (c : Char) : Bool := c.isAlphanum || c == '_'

/-- Model of `re.findall(r'\b\w+\b', s)`: maximal runs of word characters. -/
def findallWords (s : String) : List String :=
  (runsAux isWordChar s.data []).map String.mk

/-- Python `needle in hay` on strings: contiguous substring test. -/
def pySubstr (needle hay : String) : Bool :=
  hay.data.tails.any (fun t => needle.data.isPrefixOf t)

/-- Python `round(x, 1)` on the rational model. -/
def pyRound1 (q : ℚ) : ℚ := ((round (q * 10) : ℤ) : ℚ) / 10

/-- Python `round(x, 2)` on the rational model. -/
def pyRound2 (q : ℚ) : ℚ := ((round (q * 100) : ℤ) : ℚ) / 100

/-! Part 2: Query Resolver / Diagnoser (scripts/diagnose_search.py). -/

/-- A row of `terminology_map` as read by `step_trace_terminology`
(diagnose_search.py line 118: the SELECT takes every row, with no
`is_active` filter). -/
structure Mapping where
  user_term : String
  canonical_term : String
  source : String
  usage_count : Nat
deriving Repr, DecidableEq

/-- Tokenization from `step_execute_query` (diagnose_search.py line 70):
`[t.lower() for t in re.findall(r'\b\w+\b', query) if len(t) > 2]`. -/
def tokenize (query : String) : List String :=
  (findallWords query).filterMap
    (fun t => if t.length > 2 then some (lowerStr t) else none)

/-- One element of `matched_mappings` (diagnose_search.py lines 138-143). -/
structure MatchRec where
  user_term : String
  canonical_term : String
  matched_token : String
  usage_count : Nat
deriving Repr, DecidableEq

/-- The per-token test of `step_trace_terminology` (lines 134-137):
token equals, is contained in, or contains the lowercased user term, or
equals the lowercased canonical term. -/
def tokenMatches (token ut ct : String) : Bool :=
  token == ut || pySubstr token ut || pySubstr ut token || token == ct

/-- One iteration of the mapping loop (lines 128-145): the first token that
matches the mapping is recorded and discarded from the unmatched set; the
`break` means at most one token is consumed per mapping. The unmatched set
`set(tokens)` is modelled as a duplicate-free list; only membership in it is
observable (Python set order is arbitrary). -/
def traceStep (tokens : List String) (st : List MatchRec × List String)
    (m : Mapping) : List MatchRec × List String :=
  match tokens.find?
      (fun t => tokenMatches t (lowerStr m.user_term) (lowerStr m.canonical_term)) with
  | some t => (st.1 ++ [⟨m.user_term, m.canonical_term, t, m.usage_count⟩], st.2.erase t)
  | none => st

/-- Result of `step_trace_terminology` (lines 147-152). -/
structure TraceResult where
  total_mappings_available : Nat
  matched_mappings : List MatchRec
  unmatched_tokens : List String
  mapping_coverage : ℚ
deriving Repr, DecidableEq

/-- Step 2 of the resolver (diagnose_search.py lines 114-152). Note the
coverage numerator is `len(matched_mappings)` — the number of matched mapping
rows, not of matched tokens. -/
def step_trace_terminology (mappings : List Mapping) (tokens : List String) :
    TraceResult :=
  let st := mappings.foldl (traceStep tokens) ([], tokens.dedup)
  { total_mappings_available := mappings.length
    matched_mappings := st.1
    unmatched_tokens := st.2
    mapping_coverage :=
      pyRound1 ((st.1.length : ℚ) / ((max tokens.length 1 : ℕ) : ℚ) * 100) }

/-- The seed rows `('topic', 'fafsa', 'FAFSA')` and
`('topic', 'financial aid', 'FAFSA')` from run_terminology_migration.py
lines 313-314, as the resolver reads them. -/
def fafsaMapping : Mapping := ⟨"fafsa", "FAFSA", "seed", 0⟩

def financialAidMapping : Mapping := ⟨"financial aid", "FAFSA", "seed", 0⟩

/-- The scenario-B mapping `(content_type, "one pager", "1-Pager")`
(run_terminology_migration.py line 192), as the resolver reads it. -/
def onePagerMapping : Mapping := ⟨"one pager", "1-Pager", "seed", 0⟩

/-! Part 3: Popularity & Gap Analyzer (scripts/query_popularity_report.py),
stage 2: `generate_content_gap_analysis` (lines 236-288). -/

/-- One group of the popularity ranking, with the fields the gap stage reads
(`generate_popularity_ranking` additionally reports latency and type/complexity
breakdowns, which the gap stage ignores). `avg_recommendations` is the value
stored on the entry, `round(sum(recs)/len(recs), 2)`. -/
structure RankEntry where
  query : String
  count : Nat
  avg_recommendations : ℚ
deriving Repr, DecidableEq

/-- A content inventory row, with the three fields the gap stage reads. -/
structure ContentItem where
  title : Option String
  summary : Option String
  tags : Option String
deriving Repr, DecidableEq

/-- The searchable text for one item (lines 242-248):
`' '.join(filter(None, [title.lower(), summary.lower(), tags.lower()]))`. -/
def contentText (i : ContentItem) : String :=
  String.intercalate " "
    (([lowerStr (i.title.getD ""), lowerStr (i.summary.getD ""),
       lowerStr (i.tags.getD "")]).filter (fun s => s != ""))

/-- Constant `LOW_RECOMMENDATION_THRESHOLD = 2` (line 53). -/
def LOW_RECOMMENDATION_THRESHOLD : ℚ := 2

/-- Words of the query longer than 2 characters (lines 257-258). -/
def significantWords (q : String) : List String :=
  (pySplit q).filter (fun w => w.length > 2)

/-- How many inventory texts contain any significant query word (259-262). -/
def content_matches (texts : List String) (q : String) : Nat :=
  texts.countP (fun t => (significantWords q).any (fun w => pySubstr w t))

/-- The severity chain of lines 264-272: `avg_recs == 0` gives high, else
`avg_recs < LOW_RECOMMENDATION_THRESHOLD` gives medium, else
`content_matches < 3 and count >= 3` gives low, else not a gap. -/
def severityFor (avg : ℚ) (cm count : Nat) : Option String :=
  if avg = 0 then some "high"
  else if avg < LOW_RECOMMENDATION_THRESHOLD then some "medium"
  else if cm < 3 ∧ 3 ≤ count then some "low"
  else none

/-- The gap score of line 274: `count * (1 / (avg_recs + 0.1))`. -/
def gap_score (count : Nat) (avg : ℚ) : ℚ := count * (1 / (avg + 1 / 10))

/-- One record of the produced gap list (lines 276-284). -/
structure GapRecord where
  query : String
  search_count : Nat
  avg_recommendations : ℚ
  content_matches_found : Nat
  gap_severity : String
  gap_score : ℚ
  flagged : Bool
deriving Repr, DecidableEq

/-- The per-entry body of the gap loop (lines 250-284): groups searched fewer
than twice are skipped before any classification. -/
def gapForEntry (texts : List String) (e : RankEntry) : Option GapRecord :=
  if e.count < 2 then none
  else
    match severityFor e.avg_recommendations (content_matches texts e.query) e.count with
    | some sev =>
        some ⟨e.query, e.count, e.avg_recommendations,
          content_matches texts e.query, sev,
          pyRound2 (gap_score e.count e.avg_recommendations), false⟩
    | none => none

/-- Stage 2 of the analyzer (lines 236-288): classify each popularity group
and sort the resulting gaps by descending gap score. -/
def generate_content_gap_analysis (ranking : List RankEntry)
    (inventory : List ContentItem) : List GapRecord :=
  (ranking.filterMap (gapForEntry (inventory.map contentText))).insertionSort
    (fun a b => b.gap_score ≤ a.gap_score)

/-! Part 4: Terminology Store. The schema comes from
run_terminology_migration.py (terminology_table_sql, lines 43-69): columns
with NOT NULL / CHECK constraints, a UNIQUE(map_type, user_term) constraint,
and defaults confidence=1.00, source='manual', usage_count=0, is_active=true,
is_verified=false. Writers: the seed inserts of the same script (seed_sql),
insert_terminology_suggestions in query_popularity_report.py, and the
auto-fix insert in diagnose_search.py. -/

/-- Allowed `map_type` values (CHECK constraint, line 47). -/
def validMapTypes : List String :=
  ["content_type", "state", "topic", "competitor", "persona", "feature"]

/-- Allowed `source` values (CHECK constraint, line 55). -/
def validSources : List String := ["manual", "ai_suggested", "log_analysis", "seed"]

/-- A stored row of `terminology_map` (the generated uuid id is omitted; it
is never read or named by any statement modelled here). -/
structure TermRow where
  map_type : String
  user_term : String
  canonical_term : String
  confidence : ℚ
  source : String
  usage_count : Nat
  is_active : Bool
  is_verified : Bool
deriving Repr, DecidableEq

/-- The natural key governed by UNIQUE(map_type, user_term) (line 68). -/
def rowKey (r : TermRow) : String × String := (r.map_type, r.user_term)

/-- The table invariant: at most one row per (map_type, user_term). -/
def keyUnique (tbl : List TermRow) : Prop := (tbl.map rowKey).Nodup

/-- A row as supplied by an INSERT statement: `map_type` is `none` when the
statement omits the column (it has no default, so NULL is attempted). -/
structure PendingRow where
  map_type : Option String
  user_term : String
  canonical_term : String
  confidence : ℚ
  source : String
  usage_count : Nat
  is_active : Bool
  is_verified : Bool
deriving Repr, DecidableEq

/-- Column-set equality, as Postgres matches an ON CONFLICT target against a
unique index irrespective of column order. -/
def sameCols (a b : List String) : Bool :=
  a.all (fun c => b.contains c) && b.all (fun c => a.contains c)

/-- The unique constraints of `terminology_map`: only
UNIQUE(map_type, user_term). -/
def uniqueConstraints : List (List String) := [["map_type", "user_term"]]

/-- Row-level CHECK constraints of the schema. -/
def validRow (r : TermRow) : Bool :=
  validMapTypes.contains r.map_type && validSources.contains r.source &&
    decide (0 ≤ r.confidence) && decide (r.confidence ≤ 1)

/-- Conflict with an existing row on the natural key. -/
def conflictKey (tbl : List TermRow) (mt u : String) : Bool :=
  tbl.any (fun r => r.map_type == mt && r.user_term == u)

/-- Semantics of `INSERT ... ON CONFLICT (target) DO NOTHING` against the
schema: the conflict target must name an existing unique constraint, NOT NULL
and CHECK constraints must hold, a natural-key conflict is a silent no-op,
and otherwise the row is appended. -/
def executeInsert (tbl : List TermRow) (target : List String) (p : PendingRow) :
    Except String (List TermRow) :=
  if !(uniqueConstraints.any (fun v => sameCols target v)) then
    .error "there is no unique or exclusion constraint matching the ON CONFLICT specification"
  else
    match p.map_type with
    | none => .error "null value in column map_type violates not-null constraint"
    | some mt =>
      if !validRow ⟨mt, p.user_term, p.canonical_term, p.confidence, p.source,
          p.usage_count, p.is_active, p.is_verified⟩ then
        .error "new row violates a check constraint of terminology_map"
      else if conflictKey tbl mt p.user_term then .ok tbl
      else .ok (tbl ++ [⟨mt, p.user_term, p.canonical_term, p.confidence, p.source,
          p.usage_count, p.is_active, p.is_verified⟩])

/-- The idempotent-insert core shared by the seed and suggestion writers. -/
def insertRowIdem (tbl : List TermRow) (row : TermRow) : List TermRow :=
  if !validRow row then tbl
  else if conflictKey tbl row.map_type row.user_term then tbl
  else tbl ++ [row]

/-- A seed insert (seed_sql, e.g. lines 191-206): explicit source='seed',
is_verified=true, is_active=true, default confidence 1.00 and usage 0, with
`ON CONFLICT (map_type, user_term) DO NOTHING`. An error would abort the
migration script, leaving the table unchanged either way. -/
def upsert_seed (tbl : List TermRow) (mt u c : String) : List TermRow :=
  match executeInsert tbl ["map_type", "user_term"]
      ⟨some mt, u, c, 1, "seed", 0, true, true⟩ with
  | .ok t => t
  | .error _ => tbl

/-- A suggestion insert (query_popularity_report.py lines 1030-1046):
source='log_analysis', is_verified=false, is_active=false, lowercased user
term, `ON CONFLICT (map_type, user_term) DO NOTHING`; exceptions are caught
per suggestion, leaving the table unchanged. -/
def insert_suggested (tbl : List TermRow) (mt u c : String) (conf : ℚ) :
    List TermRow :=
  match executeInsert tbl ["map_type", "user_term"]
      ⟨some mt, lowerStr u, c, conf, "log_analysis", 0, false, false⟩ with
  | .ok t => t
  | .error _ => tbl

/-- The auto-fix insert of diagnose_search.py lines 333-337:
`INSERT INTO terminology_map (user_term, canonical_term, source, usage_count)
VALUES (u, s, 'auto_diagnose', 0) ON CONFLICT (user_term) DO NOTHING`.
It omits map_type (NOT NULL, no default), supplies a source outside the CHECK
list, and names a conflict target matching no unique constraint. -/
def autoFixInsert (tbl : List TermRow) (u s : String) : Except String (List TermRow) :=
  executeInsert tbl ["user_term"] ⟨none, u, s, 1, "auto_diagnose", 0, true, false⟩

/-- The seed row (topic, fafsa, FAFSA) as stored after bootstrap
(run_terminology_migration.py line 313). -/
def seededFafsaRow : TermRow := ⟨"topic", "fafsa", "FAFSA", 1, "seed", 0, true, true⟩

/-- A recommended fix as consumed by `step_auto_fix` (diagnose_search.py
lines 312-319): its type and the two terms from `specifics`. -/
structure Fix where
  fix_type : String
  user_term : Option String
  standard_term : Option String
deriving Repr, DecidableEq

/-- An entry of `fixes_applied` (lines 322-343). -/
structure AppliedFix where
  user_term : String
  canonical_term : String
  dry_run : Bool
deriving Repr, DecidableEq

/-- Result of `step_auto_fix` (lines 351-356), plus the table it leaves. -/
structure AutoFixResult where
  status : String
  fixes_applied : List AppliedFix
  fixes_skipped : List (Fix × String)
  total_applied : Nat
  table : List TermRow
deriving Repr, DecidableEq

/-- One iteration of the fix loop (lines 312-349). Python's
`if not user_term or not standard_term` treats a missing key and an empty
string alike. -/
def autoFixStep (dry_run : Bool)
    (st : List AppliedFix × List (Fix × String) × List TermRow) (f : Fix) :
    List AppliedFix × List (Fix × String) × List TermRow :=
  if f.fix_type == "add_terminology" then
    let u := f.user_term.getD ""
    let s := f.standard_term.getD ""
    if u == "" || s == "" then
      (st.1, st.2.1 ++ [(f, "Missing user_term or canonical_term")], st.2.2)
    else if dry_run then (st.1 ++ [⟨u, s, true⟩], st.2.1, st.2.2)
    else
      match autoFixInsert st.2.2 u s with
      | .ok t2 => (st.1 ++ [⟨u, s, false⟩], st.2.1, t2)
      | .error e => (st.1, st.2.1 ++ [(f, e)], st.2.2)
  else (st.1, st.2.1 ++ [(f, "Fix type not supported by auto-fix")], st.2.2)

/-- Step 6 of the resolver (diagnose_search.py lines 304-356). -/
def step_auto_fix (tbl : List TermRow) (fixes : List Fix) (dry_run : Bool) :
    AutoFixResult :=
  let st := fixes.foldl (autoFixStep dry_run) ([], [], tbl)
  { status := if st.1.isEmpty then "none_applicable" else "applied"
    fixes_applied := st.1
    fixes_skipped := st.2.1
    total_applied := st.1.length
    table := st.2.2 }

/-! Part 5: terminology mining, `generate_terminology_suggestions` Part A
(query_popularity_report.py lines 501-564). The AI part (Part B) is an
external-service call and is out of scope here. -/

/-- An active terminology mapping as fetched by `fetch_terminology_mappings`
(lines 160-176, `WHERE is_active = true`). -/
structure ActiveMapping where
  map_type : String
  user_term : String
  canonical_term : String
deriving Repr, DecidableEq

/-- The stopword set of lines 504-515, verbatim (the Python set literal lists
"me" twice; membership is unaffected). -/
def stopwords : List String :=
  ["the", "a", "an", "and", "or", "but", "in", "on", "at", "to", "for",
   "of", "with", "by", "from", "is", "are", "was", "were", "be", "been",
   "has", "have", "had", "do", "does", "did", "will", "would", "could",
   "should", "may", "might", "can", "shall", "not", "no", "nor",
   "it", "its", "this", "that", "these", "those", "i", "me", "my", "we",
   "our", "you", "your", "he", "she", "they", "them", "their", "what",
   "which", "who", "when", "where", "why", "how", "all", "each", "every",
   "both", "few", "more", "most", "other", "some", "such", "any",
   "show", "me", "find", "get", "give", "about", "like", "need",
   "want", "looking", "search", "content", "schoolinks", "schoolink"]

/-- Both sides of every active mapping, lowercased (lines 518-523). -/
def mapped_terms (ms : List ActiveMapping) : List String :=
  ms.flatMap (fun m => [lowerStr m.user_term, lowerStr m.canonical_term])

/-- Query normalization of line 530: `(log['query'] or '').strip().lower()`. -/
def normQuery (q : Option String) : String := lowerStr (pyStrip (q.getD ""))

/-- Unigram candidate occurrences in one normalized query (lines 534-539):
words longer than 2 chars that are neither stopwords nor already mapped. -/
def unigramOccs (stop mapped : List String) (q : String) : List String :=
  ((pySplit q).map (fun w => lowerStr (pyStrip w))).filter
    (fun w => decide (2 < w.length) && !stop.contains w && !mapped.contains w)

/-- Bigram candidate occurrences in one normalized query (lines 542-548):
adjacent word pairs not already mapped and not made only of stopwords. -/
def bigramOccs (stop mapped : List String) (q : String) : List String :=
  ((List.zip (pySplit q) (pySplit q).tail).map
      (fun p => p.1 ++ " " ++ p.2)).filter
    (fun b => !mapped.contains b &&
      !(pySplit b).all (fun w => stop.contains w))

/-- All counted occurrences over the raw, non-deduplicated log (the
`term_counter` increments of lines 529-548). -/
def candidateOccs (stop mapped : List String) (logs : List (Option String)) :
    List String :=
  logs.flatMap (fun l =>
    unigramOccs stop mapped (normQuery l) ++ bigramOccs stop mapped (normQuery l))

/-- An element of the `unmapped_terms` output (lines 551-559). -/
structure UnmappedTerm where
  term : String
  count : Nat
  example_queries : List String
deriving Repr, DecidableEq

/-- Up to three distinct example queries for a term (lines 538-539, 547-548
and the `list(set(...))[:3]` of line 555; which examples are kept is
unspecified in Python because set order is arbitrary). -/
def termExamples (stop mapped : List String) (logs : List (Option String))
    (t : String) : List String :=
  (((logs.map normQuery).filter (fun q =>
      (unigramOccs stop mapped q ++ bigramOccs stop mapped q).contains t)).take 3).dedup

/-- The always-running Part A of `generate_terminology_suggestions`
(lines 501-564): count unigram/bigram candidates over the raw queries, take
the 100 most common (stable sort by descending count, modelling
`Counter.most_common`), keep those seen at least twice, and return at most
50 of them. -/
def generate_unmapped_terms (logs : List (Option String))
    (ms : List ActiveMapping) : List UnmappedTerm :=
  let mapped := mapped_terms ms
  let occs := candidateOccs stopwords mapped logs
  let entries := occs.dedup.map (fun k => (k, occs.count k))
  let top := (entries.insertionSort (fun a b => b.2 ≤ a.2)).take 100
  ((top.filter (fun e => decide (2 ≤ e.2))).map
    (fun e => UnmappedTerm.mk e.1 e.2 (termExamples stopwords mapped logs e.1))).take 50

/-- Two raw log rows and one active mapping used to witness the mining
claim. -/
def demoMiningLogs : List (Option String) :=
  [some "fafsa checklist", some "fafsa checklist"]

def demoMiningMappings : List ActiveMapping := [⟨"topic", "fafsa", "FAFSA"⟩]

/-! Part 6: Maintenance Orchestrator (scripts/maintenance_orchestrator.py). -/

/-- The per-mode step lists `MAINTENANCE_STEPS` (lines 52-79). -/
def dailySteps : List String :=
  ["health_check_pre", "log_analysis", "enrichment", "tag_hygiene",
   "health_check_post"]

def weeklySteps : List String :=
  ["health_check_pre", "log_analysis", "enrichment", "tag_hygiene",
   "content_audit", "content_gaps", "health_check_post"]

def fullSteps : List String :=
  ["health_check_pre", "log_analysis", "enrichment", "tag_hygiene",
   "content_audit", "content_gaps", "import_all", "health_check_post"]

/-- Step names handled by the plain success-checking elif branches of
`run_maintenance` (lines 355-401). -/
def genericSteps : List String :=
  ["log_analysis", "enrichment", "tag_hygiene", "content_audit",
   "content_gaps", "import_all"]

/-- `MAINTENANCE_STEPS.get(mode, MAINTENANCE_STEPS['daily'])` (line 323). -/
def stepsForMode (mode : String) : List String :=
  if mode == "daily" then dailySteps
  else if mode == "weekly" then weeklySteps
  else if mode == "full" then fullSteps
  else dailySteps

/-- Orchestrator arguments: `--mode`, the parsed `--skip` list, and
`--stop-on-error` (lines 441-455). -/
structure OrchArgs where
  mode : String
  skip : List String
  stop_on_error : Bool

/-- Outcomes of the external commands and file reads the orchestrator
performs, supplied as an environment: the pre health subprocess exit status,
the `overall_status` read from /tmp/health_pre.json (`none` when the file is
missing, unreadable, or lacks the field), each other step's command success,
and the post health report status. -/
structure Env where
  preCmdSuccess : Bool
  preOverallStatus : Option String
  success : String → Bool
  postStatus : String

/-- A recorded step result: the pre health check records success, the
health_status string and the derived critical flag (lines 135-139); generic
steps record success; the post health check records success and the post
status (lines 313-317, delta omitted). -/
inductive StepRes where
  | pre (success : Bool) (health_status : String) (critical : Bool)
  | generic (success : Bool)
  | post (success : Bool) (health_status_post : String)
deriving Repr, DecidableEq

/-- The critical flag consulted by the gate (line 350: `result.get('critical')`,
present only on the pre health check result). -/
def StepRes.criticalFlag : StepRes → Bool
  | .pre _ _ c => c
  | _ => false

/-- `step_health_check_pre` (lines 117-139): health_status defaults to
"unknown" whenever the report cannot be read, and critical is derived from
the string comparison with "critical" alone — the subprocess exit status is
recorded but never consulted by the gate. -/
def step_health_check_pre (env : Env) : StepRes :=
  .pre env.preCmdSuccess (env.preOverallStatus.getD "unknown")
    ((env.preOverallStatus.getD "unknown") == "critical")

/-- The step loop of `run_maintenance` (lines 340-411): strictly sequential;
the pre health branch stops (recording the stop marker) only when its
critical flag and stop_on_error are both set; each generic branch stops only
on its own failure with stop_on_error; the post health branch has no stop
check; a name matching no elif records nothing. Returns the recorded
(name, result) list and the `stopped_at` marker. -/
def runSteps (env : Env) (args : OrchArgs) :
    List String → List (String × StepRes) × Option String
  | [] => ([], none)
  | s :: rest =>
    if s == "health_check_pre" then
      if (step_health_check_pre env).criticalFlag && args.stop_on_error then
        ([(s, step_health_check_pre env)], some s)
      else
        ((s, step_health_check_pre env) :: (runSteps env args rest).1,
         (runSteps env args rest).2)
    else if genericSteps.contains s then
      if !env.success s && args.stop_on_error then
        ([(s, StepRes.generic (env.success s))], some s)
      else
        ((s, StepRes.generic (env.success s)) :: (runSteps env args rest).1,
         (runSteps env args rest).2)
    else if s == "health_check_post" then
      ((s, StepRes.post (env.success s) env.postStatus) :: (runSteps env args rest).1,
       (runSteps env args rest).2)
    else runSteps env args rest

/-- `run_maintenance` (lines 320-411): select the mode's steps, drop the
skip-list names, and run sequentially. -/
def run_maintenance (env : Env) (args : OrchArgs) :
    List (String × StepRes) × Option String :=
  runSteps env args ((stepsForMode args.mode).filter (fun s => !args.skip.contains s))

/-- An environment whose pre health report reads critical and whose other
commands all succeed. -/
def demoEnvCritical : Env := ⟨false, some "critical", fun _ => true, "healthy"⟩

/-- An environment whose pre health subprocess fails and whose report is
unreadable, leaving the status unknown. -/
def demoEnvUnknown : Env := ⟨false, none, fun _ => true, "healthy"⟩

/-! Part 7: zero-result classification at its three call sites. -/

/-- The SQL filter of health_monitor.py lines 73 and 85:
`recommendations_count = 0 OR recommendations_count IS NULL`, used for both
the 24-hour count and the baseline rate numerator. -/
def healthIsZeroResult (rc : Option Int) : Bool := rc == some 0 || rc == none

/-- The 24h/baseline zero-result numerator of `step_query_quality`. -/
def health_zero_result_count (logs : List (Option Int)) : Nat :=
  logs.countP (fun rc => healthIsZeroResult rc)

/-- The analyzer metric of query_popularity_report.py lines 1299-1303:
`recs_all = [log['recommendations_count'] or 0 ...]` then
`sum(1 for r in recs_all if r == 0)`. -/
def analyzer_zero_result_queries (logs : List (Option Int)) : Nat :=
  ((logs.map (fun rc => rc.getD 0)).countP (fun r => r == 0))

/-- The same classification applied to one entry by the analyzer. -/
def analyzerIsZeroResult (rc : Option Int) : Bool := (rc.getD 0) == 0

/-- The WHERE clause of the resolver's --worst selection
(diagnose_search.py line 497):
`recommendations_count = 0 OR recommendations_count IS NULL`. -/
def worstQueryIsZero (rc : Option Int) : Bool := rc == some 0 || rc == none

/-! Part 9: helper lemmas about the string primitives and rounding. -/

/-- Numbers in the valid scalar range survive the `Char.ofNat` round-trip. -/
theorem toNat_ofNat_valid {n : Nat} (h : n.isValidChar) :
    (Char.ofNat n).toNat = n := by
  rw [Char.ofNat, dif_pos h]
  rfl

/-- ASCII lowercasing is idempotent per character. -/
theorem toLower_toLower (c : Char) : c.toLower.toLower = c.toLower := by
  unfold Char.toLower
  by_cases h : c.toNat ≥ 65 ∧ c.toNat ≤ 90
  · rw [if_pos h]
    have hv : (c.toNat + 32).isValidChar := Or.inl (by omega)
    have ht : (Char.ofNat (c.toNat + 32)).toNat = c.toNat + 32 :=
      toNat_ofNat_valid hv
    rw [if_neg]
    omega
  · rw [if_neg h, if_neg h]

theorem lowerStr_data (s : String) :
    (lowerStr s).data = s.data.map Char.toLower := rfl

/-- Every character of a lowercased string is fixed by `Char.toLower`. -/
theorem mem_lowerStr_fixed {s : String} {c : Char} (h : c ∈ (lowerStr s).data) :
    c.toLower = c := by
  rw [lowerStr_data] at h
  obtain ⟨a, _, rfl⟩ := List.mem_map.1 h
  exact toLower_toLower a

/-- A string all of whose characters are `toLower`-fixed is `lowerStr`-fixed. -/
theorem lowerStr_eq_self {s : String} (h : ∀ c ∈ s.data, c.toLower = c) :
    lowerStr s = s := by
  cases s with
  | mk l =>
    show String.mk (l.map Char.toLower) = String.mk l
    congr 1
    calc l.map Char.toLower = l.map id := List.map_congr_left h
    _ = l := List.map_id l

/-- Lowercasing is idempotent on strings. -/
theorem lowerStr_idem (s : String) : lowerStr (lowerStr s) = lowerStr s :=
  lowerStr_eq_self (fun _ hc => mem_lowerStr_fixed hc)

/-- Every character of every run comes from the accumulator or the input. -/
theorem mem_runsAux (p : Char → Bool) :
    ∀ (l acc : List Char), ∀ w ∈ runsAux p l acc, ∀ c ∈ w, c ∈ acc ∨ c ∈ l := by
  intro l
  induction l with
  | nil =>
    intro acc w hw c hc
    unfold runsAux at hw
    by_cases ha : acc.isEmpty
    · simp [ha] at hw
    · simp [ha] at hw
      subst hw
      exact Or.inl (List.mem_reverse.1 hc)
  | cons a as ih =>
    intro acc w hw c hc
    unfold runsAux at hw
    by_cases hp : p a
    · simp only [hp, if_pos] at hw
      rcases ih (a :: acc) w hw c hc with h | h
      · rcases List.mem_cons.1 h with h | h
        · subst h
          exact Or.inr (List.mem_cons_self c as)
        · exact Or.inl h
      · exact Or.inr (List.mem_cons_of_mem a h)
    · simp only [hp, if_neg, Bool.false_eq_true, if_false] at hw
      by_cases ha : acc.isEmpty
      · simp only [ha, if_true] at hw
        rcases ih [] w hw c hc with h | h
        · simp at h
        · exact Or.inr (List.mem_cons_of_mem a h)
      · simp only [ha, if_false] at hw
        rcases List.mem_cons.1 hw with h | h
        · subst h
          exact Or.inl (List.mem_reverse.1 hc)
        · rcases ih [] w h c hc with h2 | h2
          · simp at h2
          · exact Or.inr (List.mem_cons_of_mem a h2)

/-- Characters of any piece of `pySplit s` are characters of `s`. -/
theorem mem_pySplit_subset {s w : String} (hw : w ∈ pySplit s) :
    ∀ c ∈ w.data, c ∈ s.data := by
  intro c hc
  obtain ⟨l, hl, rfl⟩ := List.mem_map.1 hw
  rcases mem_runsAux _ s.data [] l hl c hc with h | h
  · simp at h
  · exact h

/-- Pieces of a split of a lowercased string are themselves lowercase-fixed. -/
theorem pySplit_lowerStr_fixed {s w : String} (hw : w ∈ pySplit (lowerStr s)) :
    lowerStr w = w :=
  lowerStr_eq_self (fun c hc => mem_lowerStr_fixed (mem_pySplit_subset hw c hc))

/-- An integer lower bound survives `pyRound1`. -/
theorem intCast_le_pyRound1 {n : ℤ} {x : ℚ} (h : (n : ℚ) ≤ x) :
    (n : ℚ) ≤ pyRound1 x := by
  unfold pyRound1
  rw [le_div_iff₀ (by norm_num : (0:ℚ) < 10)]
  have h2 : (n * 10 : ℤ) ≤ round (x * 10) := by
    rw [round_eq]
    have hle : ((n * 10 : ℤ) : ℚ) ≤ x * 10 + 1 / 2 := by
      push_cast
      nlinarith
    calc (n * 10 : ℤ) = ⌊((n * 10 : ℤ) : ℚ)⌋ := (Int.floor_intCast _).symm
    _ ≤ ⌊x * 10 + 1 / 2⌋ := Int.floor_le_floor hle
  calc (n : ℚ) * 10 = ((n * 10 : ℤ) : ℚ) := by push_cast; ring
  _ ≤ ((round (x * 10) : ℤ) : ℚ) := by exact_mod_cast h2

/-- Evaluation rule for `pyRound1` at inputs with a known floor. -/
theorem pyRound1_eq {x : ℚ} (n : ℤ) (h1 : (n : ℚ) ≤ x * 10 + 1 / 2)
    (h2 : x * 10 + 1 / 2 < n + 1) : pyRound1 x = (n : ℚ) / 10 := by
  unfold pyRound1
  rw [round_eq, Int.floor_eq_iff.2 ⟨h1, h2⟩]

/-- Evaluation rule for `pyRound2` at inputs with a known floor. -/
theorem pyRound2_eq {x : ℚ} (n : ℤ) (h1 : (n : ℚ) ≤ x * 100 + 1 / 2)
    (h2 : x * 100 + 1 / 2 < n + 1) : pyRound2 x = (n : ℚ) / 100 := by
  unfold pyRound2
  rw [round_eq, Int.floor_eq_iff.2 ⟨h1, h2⟩]

/-- The reported coverage, written in terms of the reported match list. -/
theorem coverage_closed_form (mappings : List Mapping) (tokens : List String) :
    (step_trace_terminology mappings tokens).mapping_coverage =
      pyRound1 (((step_trace_terminology mappings tokens).matched_mappings.length : ℚ) /
        ((max tokens.length 1 : ℕ) : ℚ) * 100) := rfl

/-- The matched/unmatched sizes never shrink in total across one mapping. -/
theorem traceStep_sum_le (tokens : List String)
    (st : List MatchRec × List String) (m : Mapping) :
    st.1.length + st.2.length ≤
      (traceStep tokens st m).1.length + (traceStep tokens st m).2.length := by
  unfold traceStep
  cases h : tokens.find? (fun t =>
      tokenMatches t (lowerStr m.user_term) (lowerStr m.canonical_term)) with
  | none => simp [h]
  | some t =>
    simp only [h, List.length_append, List.length_singleton]
    have h2 : st.2.length ≤ (st.2.erase t).length + 1 := by
      by_cases hm : t ∈ st.2
      · rw [List.length_erase_of_mem hm]
        omega
      · rw [List.erase_of_not_mem hm]
        omega
    omega

/-- The matched/unmatched size total never shrinks across the whole fold. -/
theorem traceFold_sum_le (tokens : List String) :
    ∀ (ms : List Mapping) (st : List MatchRec × List String),
      st.1.length + st.2.length ≤
        (ms.foldl (traceStep tokens) st).1.length +
          (ms.foldl (traceStep tokens) st).2.length := by
  intro ms
  induction ms with
  | nil => intro st; exact le_refl _
  | cons m ms ih =>
    intro st
    calc st.1.length + st.2.length
        ≤ (traceStep tokens st m).1.length + (traceStep tokens st m).2.length :=
          traceStep_sum_le tokens st m
    _ ≤ _ := ih (traceStep tokens st m)

/-- Lowercasing distributes over string concatenation. -/
theorem lowerStr_append (a b : String) :
    lowerStr (a ++ b) = lowerStr a ++ lowerStr b := by
  cases a with
  | mk l1 =>
    cases b with
    | mk l2 =>
      show String.mk ((l1 ++ l2).map Char.toLower) =
        String.mk (l1.map Char.toLower) ++ String.mk (l2.map Char.toLower)
      rw [List.map_append]
      rfl

/-- Every unigram candidate is lowercase-fixed and not an already-mapped
term. -/
theorem mem_unigramOccs_props {stop mapped : List String} {q k : String}
    (h : k ∈ unigramOccs stop mapped q) :
    lowerStr k = k ∧ k ∉ mapped := by
  unfold unigramOccs at h
  rw [List.mem_filter] at h
  obtain ⟨hmem, hcond⟩ := h
  obtain ⟨w, _, rfl⟩ := List.mem_map.1 hmem
  simp only [Bool.and_eq_true, Bool.not_eq_true', List.contains, List.elem_eq_mem,
    decide_eq_false_iff_not] at hcond
  exact ⟨lowerStr_idem _, hcond.2⟩

/-- Every bigram candidate over a lowercased query is lowercase-fixed and
not an already-mapped term. -/
theorem mem_bigramOccs_props {stop mapped : List String} {s k : String}
    (h : k ∈ bigramOccs stop mapped (lowerStr s)) :
    lowerStr k = k ∧ k ∉ mapped := by
  unfold bigramOccs at h
  rw [List.mem_filter] at h
  obtain ⟨hmem, hcond⟩ := h
  obtain ⟨p, hp, rfl⟩ := List.mem_map.1 hmem
  obtain ⟨h1, h2⟩ := List.of_mem_zip hp
  have hw1 : lowerStr p.1 = p.1 := pySplit_lowerStr_fixed h1
  have hw2 : lowerStr p.2 = p.2 := pySplit_lowerStr_fixed (List.mem_of_mem_tail h2)
  simp only [Bool.and_eq_true, Bool.not_eq_true', List.contains, List.elem_eq_mem,
    decide_eq_false_iff_not] at hcond
  refine ⟨?_, hcond.1⟩
  rw [lowerStr_append, lowerStr_append, hw1, hw2]
  rfl

/-- Every counted occurrence is lowercase-fixed and not an already-mapped
term. -/
theorem mem_candidateOccs_props {stop mapped : List String}
    {logs : List (Option String)} {k : String}
    (h : k ∈ candidateOccs stop mapped logs) :
    lowerStr k = k ∧ k ∉ mapped := by
  unfold candidateOccs at h
  rw [List.mem_flatMap] at h
  obtain ⟨l, _, hk⟩ := h
  rcases List.mem_append.1 hk with h1 | h1
  · exact mem_unigramOccs_props h1
  · exact mem_bigramOccs_props h1

/-! Helper lemmas for the terminology store. -/

/-- The auto-fix INSERT always fails: its conflict target `(user_term)`
matches no unique constraint of the table (the only one is on
`(map_type, user_term)`), so the statement is rejected before any row is
considered. -/
theorem autoFixInsert_error (tbl : List TermRow) (u s : String) :
    autoFixInsert tbl u s =
      .error "there is no unique or exclusion constraint matching the ON CONFLICT specification" :=
  rfl

/-- One auto-fix iteration never changes the table. -/
theorem autoFixStep_table (dry : Bool)
    (st : List AppliedFix × List (Fix × String) × List TermRow) (f : Fix) :
    (autoFixStep dry st f).2.2 = st.2.2 := by
  unfold autoFixStep
  by_cases h1 : f.fix_type == "add_terminology"
  · by_cases h2 : (f.user_term.getD "" == "" || f.standard_term.getD "" == "")
    · simp [h1, h2]
    · by_cases h3 : dry
      · simp [h1, h2, h3]
      · simp [h1, h2, h3, autoFixInsert_error]
  · simp [h1]

/-- The auto-fix fold never changes the table. -/
theorem autoFixFold_table (dry : Bool) :
    ∀ (fixes : List Fix) (st : List AppliedFix × List (Fix × String) × List TermRow),
      (fixes.foldl (autoFixStep dry) st).2.2 = st.2.2 := by
  intro fixes
  induction fixes with
  | nil => intro st; rfl
  | cons f fs ih =>
    intro st
    calc (fs.foldl (autoFixStep dry) (autoFixStep dry st f)).2.2
        = (autoFixStep dry st f).2.2 := ih (autoFixStep dry st f)
    _ = st.2.2 := autoFixStep_table dry st f

/-- The seed insert is the idempotent core applied to the seed row. -/
theorem upsert_seed_eq_core (tbl : List TermRow) (mt u c : String) :
    upsert_seed tbl mt u c = insertRowIdem tbl ⟨mt, u, c, 1, "seed", 0, true, true⟩ := by
  have htarget : (uniqueConstraints.any
      (fun v => sameCols ["map_type", "user_term"] v)) = true := rfl
  unfold upsert_seed executeInsert insertRowIdem
  rw [htarget]
  by_cases hv : validRow ⟨mt, u, c, 1, "seed", 0, true, true⟩
  · by_cases hk : conflictKey tbl mt u
    · simp [hv, hk]
    · simp [hv, hk]
  · simp [hv]

/-- The suggestion insert is the idempotent core applied to its
inactive/unverified row (with lowercased user term). -/
theorem insert_suggested_eq_core (tbl : List TermRow) (mt u c : String) (conf : ℚ) :
    insert_suggested tbl mt u c conf =
      insertRowIdem tbl ⟨mt, lowerStr u, c, conf, "log_analysis", 0, false, false⟩ := by
  have htarget : (uniqueConstraints.any
      (fun v => sameCols ["map_type", "user_term"] v)) = true := rfl
  unfold insert_suggested executeInsert insertRowIdem
  rw [htarget]
  by_cases hv : validRow ⟨mt, lowerStr u, c, conf, "log_analysis", 0, false, false⟩
  · by_cases hk : conflictKey tbl mt (lowerStr u)
    · simp [hv, hk]
    · simp [hv, hk]
  · simp [hv]

/-- The idempotent core only ever appends. -/
theorem insertRowIdem_extends (tbl : List TermRow) (row : TermRow) :
    ∃ ext, insertRowIdem tbl row = tbl ++ ext := by
  unfold insertRowIdem
  split_ifs
  · exact ⟨[], (List.append_nil tbl).symm⟩
  · exact ⟨[], (List.append_nil tbl).symm⟩
  · exact ⟨[row], rfl⟩

/-- The idempotent core preserves natural-key uniqueness. -/
theorem insertRowIdem_keyUnique (tbl : List TermRow) (row : TermRow)
    (h : keyUnique tbl) : keyUnique (insertRowIdem tbl row) := by
  unfold insertRowIdem
  split_ifs with hv hk
  · exact h
  · exact h
  · unfold keyUnique at h ⊢
    rw [List.map_append, List.nodup_append]
    refine ⟨h, by simp, ?_⟩
    intro x hx hx2
    simp only [List.map_cons, List.map_nil, List.mem_singleton] at hx2
    subst hx2
    obtain ⟨r, hr, hkey⟩ := List.mem_map.1 hx
    apply hk
    unfold conflictKey
    rw [List.any_eq_true]
    refine ⟨r, hr, ?_⟩
    unfold rowKey at hkey
    have h1 : r.map_type = row.map_type := congrArg Prod.fst hkey
    have h2 : r.user_term = row.user_term := congrArg Prod.snd hkey
    simp [h1, h2]

/-- A natural-key conflict makes the idempotent core a complete no-op,
whatever the incoming row carries. -/
theorem insertRowIdem_conflict (tbl : List TermRow) (row : TermRow)
    (h : conflictKey tbl row.map_type row.user_term = true) :
    insertRowIdem tbl row = tbl := by
  unfold insertRowIdem
  by_cases hv : (!validRow row) = true
  · rw [if_pos hv]
  · rw [if_neg hv, if_pos h]

/-- The idempotent core is idempotent: a second identical insert is a no-op. -/
theorem insertRowIdem_idem (tbl : List TermRow) (row : TermRow) :
    insertRowIdem (insertRowIdem tbl row) row = insertRowIdem tbl row := by
  by_cases hv : validRow row
  · by_cases hk : conflictKey tbl row.map_type row.user_term
    · unfold insertRowIdem
      simp [hv, hk]
    · have hdup : conflictKey (tbl ++ [row]) row.map_type row.user_term = true := by
        unfold conflictKey
        rw [List.any_append]
        simp
      unfold insertRowIdem
      simp [hv, hk, hdup]
  · unfold insertRowIdem
    simp [hv]

/-! Helper lemmas for the orchestrator. -/

/-- The run can only stop at the pre health gate when the critical flag and
stop_on_error were both set. -/
theorem runSteps_stopped_pre (env : Env) (args : OrchArgs) :
    ∀ l : List String, (runSteps env args l).2 = some "health_check_pre" →
      (step_health_check_pre env).criticalFlag = true ∧ args.stop_on_error = true := by
  intro l
  induction l with
  | nil =>
    intro h
    simp [runSteps] at h
  | cons s rest ih =>
    intro h
    unfold runSteps at h
    by_cases h1 : (s == "health_check_pre") = true
    · rw [if_pos h1] at h
      by_cases h2 : ((step_health_check_pre env).criticalFlag && args.stop_on_error) = true
      · exact Bool.and_eq_true_iff.1 h2
      · rw [if_neg h2] at h
        exact ih h
    · rw [if_neg h1] at h
      by_cases h3 : (genericSteps.contains s) = true
      · rw [if_pos h3] at h
        by_cases h4 : (!env.success s && args.stop_on_error) = true
        · rw [if_pos h4] at h
          have hs : s = "health_check_pre" := by simpa using h
          rw [hs] at h1
          simp at h1
        · rw [if_neg h4] at h
          exact ih h
      · rw [if_neg h3] at h
        by_cases h5 : (s == "health_check_post") = true
        · rw [if_pos h5] at h
          exact ih h
        · rw [if_neg h5] at h
          exact ih h

/-- Evaluation of the gate branch: critical plus stop_on_error stops the run
with only the pre check recorded. -/
theorem runSteps_pre_stop (env : Env) (args : OrchArgs) (rest : List String)
    (hc : (step_health_check_pre env).criticalFlag = true)
    (hs : args.stop_on_error = true) :
    runSteps env args ("health_check_pre" :: rest) =
      ([("health_check_pre", step_health_check_pre env)], some "health_check_pre") := by
  have h1 : runSteps env args ("health_check_pre" :: rest) =
      if (step_health_check_pre env).criticalFlag && args.stop_on_error then
        ([("health_check_pre", step_health_check_pre env)], some "health_check_pre")
      else
        (("health_check_pre", step_health_check_pre env) :: (runSteps env args rest).1,
         (runSteps env args rest).2) := rfl
  rw [h1, if_pos (by rw [hc, hs]; rfl)]

/-- Evaluation of the gate branch when it does not fire. -/
theorem runSteps_pre_go (env : Env) (args : OrchArgs) (rest : List String)
    (hc : ¬ ((step_health_check_pre env).criticalFlag && args.stop_on_error) = true) :
    runSteps env args ("health_check_pre" :: rest) =
      (("health_check_pre", step_health_check_pre env) :: (runSteps env args rest).1,
       (runSteps env args rest).2) := by
  have h1 : runSteps env args ("health_check_pre" :: rest) =
      if (step_health_check_pre env).criticalFlag && args.stop_on_error then
        ([("health_check_pre", step_health_check_pre env)], some "health_check_pre")
      else
        (("health_check_pre", step_health_check_pre env) :: (runSteps env args rest).1,
         (runSteps env args rest).2) := rfl
  rw [h1, if_neg hc]

/-- Whatever its command outcome, a reached log_analysis step is recorded at
the head of the remaining run. -/
theorem runSteps_log_analysis_head (env : Env) (args : OrchArgs) (rest : List String) :
    ∃ r t, (runSteps env args ("log_analysis" :: rest)).1 = ("log_analysis", r) :: t := by
  have h1 : runSteps env args ("log_analysis" :: rest) =
      if !env.success "log_analysis" && args.stop_on_error then
        ([("log_analysis", StepRes.generic (env.success "log_analysis"))], some "log_analysis")
      else
        (("log_analysis", StepRes.generic (env.success "log_analysis")) ::
            (runSteps env args rest).1,
         (runSteps env args rest).2) := rfl
  rw [h1]
  by_cases hb : (!env.success "log_analysis" && args.stop_on_error) = true
  · rw [if_pos hb]
    exact ⟨_, _, rfl⟩
  · rw [if_neg hb]
    exact ⟨_, _, rfl⟩

/-! Part 10: the claims. -/

/-- C1, counterexample. With only the two seed rows (topic, fafsa, FAFSA) and
(topic, financial aid, FAFSA) loaded, diagnosing the query "fafsa" reports
mapping_coverage = 200: both mappings match the single token "fafsa" (the
first by user_term equality, the second by canonical_term equality), and the
numerator counts matched mappings, not matched tokens. This falsifies
`0 ≤ mapping_coverage ≤ 100`, falsifies
`mapping_coverage = matched_tokens / max(total_tokens, 1) * 100` (one matched
token out of one total would give 100), and falsifies
`mapping_coverage = 100 ↔ unmatched_tokens = []` (unmatched_tokens is empty
here yet coverage is 200, not 100). -/
theorem c1_counterexample :
    (step_trace_terminology [fafsaMapping, financialAidMapping]
        (tokenize "fafsa")).mapping_coverage = 200 ∧
    (step_trace_terminology [fafsaMapping, financialAidMapping]
        (tokenize "fafsa")).unmatched_tokens = [] ∧
    ¬ ((step_trace_terminology [fafsaMapping, financialAidMapping]
        (tokenize "fafsa")).mapping_coverage ≤ 100) ∧
    ¬ ((step_trace_terminology [fafsaMapping, financialAidMapping]
        (tokenize "fafsa")).mapping_coverage = 100 ↔
       (step_trace_terminology [fafsaMapping, financialAidMapping]
        (tokenize "fafsa")).unmatched_tokens = []) := by
  have hcov : (step_trace_terminology [fafsaMapping, financialAidMapping]
      (tokenize "fafsa")).mapping_coverage = 200 := by
    rw [coverage_closed_form]
    have hm : (step_trace_terminology [fafsaMapping, financialAidMapping]
        (tokenize "fafsa")).matched_mappings.length = 2 := by decide
    have hn : max (tokenize "fafsa").length 1 = 1 := by decide
    rw [hm, hn]
    rw [pyRound1_eq 2000 (by norm_num) (by norm_num)]
    norm_num
  refine ⟨hcov, by decide, ?_, ?_⟩
  · rw [hcov]
    norm_num
  · intro hiff
    have h1 : (step_trace_terminology [fafsaMapping, financialAidMapping]
        (tokenize "fafsa")).mapping_coverage = 100 := hiff.2 (by decide)
    rw [hcov] at h1
    norm_num at h1

/-- C1, amended. The reported coverage is `round((number of matched mapping
rows) / max(total tokens, 1) * 100, 1)`: it is always nonnegative, but it is
a count of matched mappings, not of matched tokens, so it can exceed 100 and
`coverage = 100` does not coincide with `unmatched_tokens = []`. What does
hold: if `unmatched_tokens` is empty then at least as many mapping rows
matched as there are distinct tokens, and when the token list is nonempty and
duplicate-free an empty `unmatched_tokens` forces coverage ≥ 100. -/
theorem c1_amended (mappings : List Mapping) (tokens : List String) :
    0 ≤ (step_trace_terminology mappings tokens).mapping_coverage ∧
    (step_trace_terminology mappings tokens).mapping_coverage =
      pyRound1 (((step_trace_terminology mappings tokens).matched_mappings.length : ℚ) /
        ((max tokens.length 1 : ℕ) : ℚ) * 100) ∧
    ((step_trace_terminology mappings tokens).unmatched_tokens = [] →
      tokens.dedup.length ≤
        (step_trace_terminology mappings tokens).matched_mappings.length) ∧
    (tokens.Nodup → tokens ≠ [] →
      (step_trace_terminology mappings tokens).unmatched_tokens = [] →
      100 ≤ (step_trace_terminology mappings tokens).mapping_coverage) := by
  have hfold := traceFold_sum_le tokens mappings ([], tokens.dedup)
  have hcount : ∀ _ : (step_trace_terminology mappings tokens).unmatched_tokens = [],
      tokens.dedup.length ≤
        (step_trace_terminology mappings tokens).matched_mappings.length := by
    intro hempty
    have hz : (mappings.foldl (traceStep tokens) ([], tokens.dedup)).2.length = 0 := by
      have he : (step_trace_terminology mappings tokens).unmatched_tokens =
          (mappings.foldl (traceStep tokens) ([], tokens.dedup)).2 := rfl
      rw [he] at hempty
      simp [hempty]
    simp only [List.length_nil, Nat.zero_add, hz, Nat.add_zero] at hfold
    exact hfold
  refine ⟨?_, rfl, hcount, ?_⟩
  · rw [coverage_closed_form]
    have h0 : ((0 : ℤ) : ℚ) ≤
        (((step_trace_terminology mappings tokens).matched_mappings.length : ℚ) /
          ((max tokens.length 1 : ℕ) : ℚ) * 100) := by
      push_cast
      positivity
    exact_mod_cast intCast_le_pyRound1 h0
  · intro hnd hne hempty
    have hd : tokens.dedup = tokens := List.dedup_eq_self.2 hnd
    have hlen := hcount hempty
    rw [hd] at hlen
    have hpos : 0 < tokens.length := List.length_pos.2 hne
    have hmaxn : max tokens.length 1 = tokens.length := by omega
    rw [coverage_closed_form, hmaxn]
    have hq : (0 : ℚ) < (tokens.length : ℚ) := by exact_mod_cast hpos
    have hfrac : ((100 : ℤ) : ℚ) ≤
        ((step_trace_terminology mappings tokens).matched_mappings.length : ℚ) /
          (tokens.length : ℚ) * 100 := by
      have hone : (1 : ℚ) ≤
          ((step_trace_terminology mappings tokens).matched_mappings.length : ℚ) /
            (tokens.length : ℚ) := by
        rw [le_div_iff₀ hq]
        have hcast : (tokens.length : ℚ) ≤
            ((step_trace_terminology mappings tokens).matched_mappings.length : ℚ) := by
          exact_mod_cast hlen
        linarith
      push_cast
      nlinarith
    exact_mod_cast intCast_le_pyRound1 hfrac

/-- C1 amended, witness: the single seed mapping (topic, fafsa, FAFSA)
against the one-token query "fafsa" satisfies every hypothesis, giving
coverage 100 with no unmatched tokens. -/
theorem c1_amended_witness :
    (tokenize "fafsa").Nodup ∧ tokenize "fafsa" ≠ [] ∧
    (step_trace_terminology [fafsaMapping] (tokenize "fafsa")).unmatched_tokens = [] ∧
    100 ≤ (step_trace_terminology [fafsaMapping] (tokenize "fafsa")).mapping_coverage :=
  ⟨by decide, by decide, by decide,
    (c1_amended [fafsaMapping] (tokenize "fafsa")).2.2.2 (by decide) (by decide) (by decide)⟩

/-- C2, counterexample. With exactly the active mapping
(content_type, "one pager", "1-Pager") loaded, resolving
"need a one pager on fafsa" leaves "pager" in unmatched_tokens: the mapping
loop breaks after consuming its first matching token "one", so no bigram
consumption of both words takes place, contradicting the claim that neither
"one" nor "pager" appears in unmatched_tokens. -/
theorem c2_counterexample :
    "pager" ∈ (step_trace_terminology [onePagerMapping]
      (tokenize "need a one pager on fafsa")).unmatched_tokens := by
  decide

/-- C2, amended. Resolving "need a one pager on fafsa" against the single
active mapping (content_type, "one pager", "1-Pager") records the mapping in
matched_mappings with matched token "one" (substring match of "one" inside
"one pager"), and "one" is removed from unmatched_tokens — but "pager"
remains unmatched, because each mapping consumes at most its first matching
token. -/
theorem c2_amended :
    (step_trace_terminology [onePagerMapping]
        (tokenize "need a one pager on fafsa")).matched_mappings =
      [⟨"one pager", "1-Pager", "one", 0⟩] ∧
    "one" ∉ (step_trace_terminology [onePagerMapping]
        (tokenize "need a one pager on fafsa")).unmatched_tokens ∧
    "pager" ∈ (step_trace_terminology [onePagerMapping]
        (tokenize "need a one pager on fafsa")).unmatched_tokens := by
  refine ⟨by decide, by decide, by decide⟩

/-- C4. For any popularity group with count ≥ 2, the severity chain lands in
exactly one of high / medium / low / not-a-gap, characterized by the chain
conditions; `avg_recommendations == 0` always yields high; and groups with
count < 2 are skipped before any classification. -/
theorem c4_gap_classification :
    (∀ (avg : ℚ) (cm count : Nat), 2 ≤ count →
      (severityFor avg cm count = some "high" ↔ avg = 0) ∧
      (severityFor avg cm count = some "medium" ↔ ¬ avg = 0 ∧ avg < 2) ∧
      (severityFor avg cm count = some "low" ↔
        ¬ avg = 0 ∧ ¬ avg < 2 ∧ (cm < 3 ∧ 3 ≤ count)) ∧
      (severityFor avg cm count = none ↔
        ¬ avg = 0 ∧ ¬ avg < 2 ∧ ¬ (cm < 3 ∧ 3 ≤ count))) ∧
    (∀ (avg : ℚ) (cm count : Nat), avg = 0 → severityFor avg cm count = some "high") ∧
    (∀ (texts : List String) (e : RankEntry), e.count < 2 → gapForEntry texts e = none) := by
  refine ⟨?_, ?_, ?_⟩
  · intro avg cm count _
    unfold severityFor LOW_RECOMMENDATION_THRESHOLD
    split_ifs with h1 h2 h3 <;> simp_all
  · intro avg cm count h
    unfold severityFor
    rw [if_pos h]
  · intro texts e h
    unfold gapForEntry
    rw [if_pos h]

/-- C4 witness: the classification at concrete inputs, obtained from the
characterization theorem (count = 2 for the high and medium rows, count = 3
with 1 content match for the low row, count = 3 with 5 matches for the
excluded row, and a count-1 group that is never classified). -/
theorem c4_gap_classification_witness :
    severityFor 0 5 2 = some "high" ∧
    severityFor 1 5 2 = some "medium" ∧
    severityFor 3 1 3 = some "low" ∧
    severityFor 3 5 3 = none ∧
    gapForEntry [] ⟨"fafsa checklist", 1, 0⟩ = none :=
  ⟨(c4_gap_classification.1 0 5 2 (by norm_num)).1.mpr rfl,
   (c4_gap_classification.1 1 5 2 (by norm_num)).2.1.mpr
     ⟨by norm_num, by norm_num⟩,
   (c4_gap_classification.1 3 1 3 (by norm_num)).2.2.1.mpr
     ⟨by norm_num, by norm_num, by norm_num, by norm_num⟩,
   (c4_gap_classification.1 3 5 3 (by norm_num)).2.2.2.mpr
     ⟨by norm_num, by norm_num, by omega⟩,
   c4_gap_classification.2.2 [] ⟨"fafsa checklist", 1, 0⟩ (by norm_num)⟩

/-- C5. The gap score `count * (1 / (avg + 0.1))` is strictly increasing in
the count for any fixed nonnegative average, and strictly decreasing in the
average for any fixed positive count. -/
theorem c5_gap_score_monotone :
    (∀ (a : ℚ) (c1 c2 : Nat), 0 ≤ a → 0 < c1 → c1 < c2 →
      gap_score c1 a < gap_score c2 a) ∧
    (∀ (c : Nat) (a1 a2 : ℚ), 0 < c → 0 ≤ a1 → a1 < a2 →
      gap_score c a2 < gap_score c a1) := by
  constructor
  · intro a c1 c2 ha _ hc
    unfold gap_score
    have hden : (0 : ℚ) < a + 1 / 10 := by linarith
    have hinv : (0 : ℚ) < 1 / (a + 1 / 10) := by positivity
    have hcast : (c1 : ℚ) < (c2 : ℚ) := by exact_mod_cast hc
    exact mul_lt_mul_of_pos_right hcast hinv
  · intro c a1 a2 hc ha1 hlt
    unfold gap_score
    have hden1 : (0 : ℚ) < a1 + 1 / 10 := by linarith
    have hinv : 1 / (a2 + 1 / 10) < 1 / (a1 + 1 / 10) :=
      one_div_lt_one_div_of_lt hden1 (by linarith)
    have hcast : (0 : ℚ) < (c : ℚ) := by exact_mod_cast hc
    exact mul_lt_mul_of_pos_left hinv hcast

/-- C5 witness: monotonicity instantiated at score(2, 0) < score(3, 0) and
score(5, 1) < score(5, 0). -/
theorem c5_gap_score_monotone_witness :
    gap_score 2 0 < gap_score 3 0 ∧ gap_score 5 1 < gap_score 5 0 :=
  ⟨c5_gap_score_monotone.1 0 2 3 (by norm_num) (by norm_num) (by norm_num),
   c5_gap_score_monotone.2 5 0 1 (by norm_num) (by norm_num) (by norm_num)⟩

/-- C3. The auto-fix write path is broken against its own schema: the INSERT
of step_auto_fix omits map_type (NOT NULL with no default), supplies the
source 'auto_diagnose' outside the CHECK list, and names ON CONFLICT
(user_term) although the only unique constraint is (map_type, user_term), so
the statement is always rejected. Consequently step_auto_fix never writes a
row for any fix list (dry-run or not); at the failing input — a well-formed
add-terminology fix mapping "one pager" to "1-Pager" with dry-run off — the
fix lands in fixes_skipped with the Postgres error, fixes_applied stays
empty, and the status is none_applicable instead of applied. -/
theorem c3_auto_fix_never_writes :
    (∀ (tbl : List TermRow) (u s : String),
      autoFixInsert tbl u s =
        .error "there is no unique or exclusion constraint matching the ON CONFLICT specification") ∧
    (∀ (tbl : List TermRow) (fixes : List Fix) (dry : Bool),
      (step_auto_fix tbl fixes dry).table = tbl) ∧
    (step_auto_fix [] [⟨"add_terminology", some "one pager", some "1-Pager"⟩]
        false).fixes_applied = [] ∧
    (step_auto_fix [] [⟨"add_terminology", some "one pager", some "1-Pager"⟩]
        false).fixes_skipped =
      [(⟨"add_terminology", some "one pager", some "1-Pager"⟩,
        "there is no unique or exclusion constraint matching the ON CONFLICT specification")] ∧
    (step_auto_fix [] [⟨"add_terminology", some "one pager", some "1-Pager"⟩]
        false).status = "none_applicable" := by
  refine ⟨autoFixInsert_error, ?_, by decide, by decide, by decide⟩
  intro tbl fixes dry
  exact autoFixFold_table dry fixes ([], [], tbl)

/-- C6. Both terminology writers are idempotent upserts on the natural key
(category, user_term): they preserve the at-most-one-row-per-key invariant;
a repeated insert with the same arguments is a complete no-op; when a row
with the key already exists the insert is silently ignored whatever
canonical term or confidence it carries, so no field of the existing row
ever changes; and an insert never rewrites existing rows in any case — it
either leaves the table untouched or appends one new row at the end. -/
theorem c6_idempotent_store (tbl : List TermRow) (mt u c c2 : String)
    (conf conf2 : ℚ) :
    (keyUnique tbl →
      keyUnique (upsert_seed tbl mt u c) ∧
      keyUnique (insert_suggested tbl mt u c conf)) ∧
    upsert_seed (upsert_seed tbl mt u c) mt u c = upsert_seed tbl mt u c ∧
    insert_suggested (insert_suggested tbl mt u c conf) mt u c conf =
      insert_suggested tbl mt u c conf ∧
    (conflictKey tbl mt u = true → upsert_seed tbl mt u c2 = tbl) ∧
    (conflictKey tbl mt (lowerStr u) = true →
      insert_suggested tbl mt u c2 conf2 = tbl) ∧
    (∃ ext, upsert_seed tbl mt u c = tbl ++ ext) ∧
    (∃ ext, insert_suggested tbl mt u c conf = tbl ++ ext) := by
  refine ⟨?_, ?_, ?_, ?_, ?_, ?_, ?_⟩
  · intro h
    rw [upsert_seed_eq_core, insert_suggested_eq_core]
    exact ⟨insertRowIdem_keyUnique tbl _ h, insertRowIdem_keyUnique tbl _ h⟩
  · rw [upsert_seed_eq_core, upsert_seed_eq_core]
    exact insertRowIdem_idem tbl _
  · rw [insert_suggested_eq_core, insert_suggested_eq_core]
    exact insertRowIdem_idem tbl _
  · intro h
    rw [upsert_seed_eq_core]
    exact insertRowIdem_conflict tbl _ h
  · intro h
    rw [insert_suggested_eq_core]
    exact insertRowIdem_conflict tbl _ h
  · rw [upsert_seed_eq_core]
    exact insertRowIdem_extends tbl _
  · rw [insert_suggested_eq_core]
    exact insertRowIdem_extends tbl _

/-- C7. No term in the mining output equals, case-insensitively, the
user_term or canonical_term of any active mapping, and every returned term
was counted at least twice over the raw (non-deduplicated) queries. -/
theorem c7_mining_exclusion (logs : List (Option String)) (ms : List ActiveMapping) :
    ∀ t ∈ generate_unmapped_terms logs ms,
      2 ≤ t.count ∧
      ∀ m ∈ ms, lowerStr t.term ≠ lowerStr m.user_term ∧
        lowerStr t.term ≠ lowerStr m.canonical_term := by
  intro t ht
  unfold generate_unmapped_terms at ht
  have ht2 := List.mem_of_mem_take ht
  rw [List.mem_map] at ht2
  obtain ⟨e, he, rfl⟩ := ht2
  rw [List.mem_filter] at he
  obtain ⟨hetop, hcnt⟩ := he
  have hcount : 2 ≤ e.2 := of_decide_eq_true hcnt
  have hesort := List.mem_of_mem_take hetop
  rw [(List.perm_insertionSort _ _).mem_iff, List.mem_map] at hesort
  obtain ⟨k, hk, rfl⟩ := hesort
  have hk2 : k ∈ candidateOccs stopwords (mapped_terms ms) logs :=
    List.mem_dedup.1 hk
  obtain ⟨hfix, hnotmapped⟩ := mem_candidateOccs_props hk2
  refine ⟨hcount, ?_⟩
  intro m hm
  constructor
  · intro heq
    rw [hfix] at heq
    apply hnotmapped
    rw [heq]
    unfold mapped_terms
    rw [List.mem_flatMap]
    exact ⟨m, hm, by simp⟩
  · intro heq
    rw [hfix] at heq
    apply hnotmapped
    rw [heq]
    unfold mapped_terms
    rw [List.mem_flatMap]
    exact ⟨m, hm, by simp⟩

/-- C7 witness: over two raw logs "fafsa checklist" with the single active
mapping (topic, fafsa, FAFSA), the term "checklist" is returned with count 2
and differs case-insensitively from both sides of the mapping. -/
theorem c7_mining_exclusion_witness :
    2 ≤ (UnmappedTerm.mk "checklist" 2 ["fafsa checklist"]).count ∧
    ∀ m ∈ demoMiningMappings,
      lowerStr (UnmappedTerm.mk "checklist" 2 ["fafsa checklist"]).term ≠
        lowerStr m.user_term ∧
      lowerStr (UnmappedTerm.mk "checklist" 2 ["fafsa checklist"]).term ≠
        lowerStr m.canonical_term :=
  c7_mining_exclusion demoMiningLogs demoMiningMappings
    (UnmappedTerm.mk "checklist" 2 ["fafsa checklist"]) (by decide)

/-- C8. With stop-on-error set and the pre health report reading critical,
the run records exactly the pre health step, stops there with
stopped_at = "health_check_pre", and in particular never reaches
log_analysis — for every mode and any skip list not skipping the gate. -/
theorem c8_critical_gate (env : Env) (args : OrchArgs)
    (hcrit : env.preOverallStatus = some "critical")
    (hstop : args.stop_on_error = true)
    (hskip : "health_check_pre" ∉ args.skip) :
    (run_maintenance env args).1.map Prod.fst = ["health_check_pre"] ∧
    (run_maintenance env args).2 = some "health_check_pre" ∧
    "log_analysis" ∉ (run_maintenance env args).1.map Prod.fst := by
  have hpred : (!args.skip.contains "health_check_pre") = true := by
    simp [List.contains, hskip]
  have hfilter : ∃ rest,
      (stepsForMode args.mode).filter (fun s => !args.skip.contains s) =
        "health_check_pre" :: rest := by
    unfold stepsForMode dailySteps weeklySteps fullSteps
    split_ifs
    all_goals exact ⟨_, by rw [List.filter_cons, if_pos hpred]⟩
  obtain ⟨rest, hrest⟩ := hfilter
  have hcritflag : (step_health_check_pre env).criticalFlag = true := by
    unfold step_health_check_pre StepRes.criticalFlag
    rw [hcrit]
    rfl
  unfold run_maintenance
  rw [hrest, runSteps_pre_stop env args rest hcritflag hstop]
  exact ⟨rfl, rfl, by simp⟩

/-- C8 witness: daily mode, empty skip list, stop-on-error set, and an
environment whose pre health report reads critical. -/
theorem c8_critical_gate_witness :
    (run_maintenance demoEnvCritical ⟨"daily", [], true⟩).1.map Prod.fst =
      ["health_check_pre"] ∧
    (run_maintenance demoEnvCritical ⟨"daily", [], true⟩).2 =
      some "health_check_pre" ∧
    "log_analysis" ∉
      (run_maintenance demoEnvCritical ⟨"daily", [], true⟩).1.map Prod.fst :=
  c8_critical_gate demoEnvCritical ⟨"daily", [], true⟩ rfl rfl (by decide)

/-- C9. At all three call sites — the Health Monitor's zero-result counts,
the analyzer's zero_result_queries metric, and the resolver's --worst
selection — a NULL recommendations_count is classified as zero-result,
exactly as the value 0 is; the three classifiers agree on every entry, and
replacing every NULL by 0 leaves the counts unchanged. -/
theorem c9_null_counts_as_zero :
    healthIsZeroResult none = true ∧
    analyzerIsZeroResult none = true ∧
    worstQueryIsZero none = true ∧
    healthIsZeroResult none = healthIsZeroResult (some 0) ∧
    analyzerIsZeroResult none = analyzerIsZeroResult (some 0) ∧
    worstQueryIsZero none = worstQueryIsZero (some 0) ∧
    (∀ rc : Option Int,
      analyzerIsZeroResult rc = healthIsZeroResult rc ∧
      worstQueryIsZero rc = healthIsZeroResult rc) ∧
    (∀ logs : List (Option Int),
      analyzer_zero_result_queries logs = health_zero_result_count logs ∧
      health_zero_result_count logs =
        health_zero_result_count (logs.map (fun rc => some (rc.getD 0)))) := by
  have hpt : ∀ rc : Option Int,
      analyzerIsZeroResult rc = healthIsZeroResult rc ∧
      worstQueryIsZero rc = healthIsZeroResult rc := by
    intro rc
    cases rc with
    | none => exact ⟨rfl, rfl⟩
    | some n =>
      constructor
      · simp [analyzerIsZeroResult, healthIsZeroResult]
      · rfl
  refine ⟨rfl, rfl, rfl, rfl, rfl, rfl, hpt, ?_⟩
  intro logs
  constructor
  · unfold analyzer_zero_result_queries health_zero_result_count
    rw [List.countP_map]
    apply List.countP_congr
    intro rc _
    show ((rc.getD 0 == 0) = true ↔ healthIsZeroResult rc = true)
    rw [show (rc.getD 0 == 0) = healthIsZeroResult rc from (hpt rc).1]
  · unfold health_zero_result_count
    rw [List.countP_map]
    apply List.countP_congr
    intro rc _
    show (healthIsZeroResult rc = true ↔ healthIsZeroResult (some (rc.getD 0)) = true)
    rw [show healthIsZeroResult rc = healthIsZeroResult (some (rc.getD 0)) from by
      cases rc <;> rfl]

/-- C10. When the pre health report cannot be read (status stays "unknown"),
the recorded pre result is non-critical whatever the subprocess exit status,
the run never stops at the gate even with stop-on-error set, and in daily
mode with no skip list the next step (log_analysis) is executed. -/
theorem c10_unknown_health_no_halt (env : Env) (args : OrchArgs)
    (hmiss : env.preOverallStatus = none) :
    step_health_check_pre env = .pre env.preCmdSuccess "unknown" false ∧
    (run_maintenance env args).2 ≠ some "health_check_pre" ∧
    (args.mode = "daily" → args.skip = [] →
      "log_analysis" ∈ (run_maintenance env args).1.map Prod.fst) := by
  have hpre : step_health_check_pre env = .pre env.preCmdSuccess "unknown" false := by
    unfold step_health_check_pre
    rw [hmiss]
    rfl
  have hflag : (step_health_check_pre env).criticalFlag = false := by
    rw [hpre]
    rfl
  refine ⟨hpre, ?_, ?_⟩
  · intro hstop
    have hc := (runSteps_stopped_pre env args _ hstop).1
    rw [hflag] at hc
    exact Bool.false_ne_true hc
  · intro hmode hskip
    unfold run_maintenance
    rw [hmode, hskip]
    have hfilt : (stepsForMode "daily").filter
        (fun s => !([] : List String).contains s) = dailySteps := by decide
    rw [hfilt]
    show "log_analysis" ∈
      (runSteps env args ("health_check_pre" :: "log_analysis" :: "enrichment" ::
        "tag_hygiene" :: "health_check_post" :: [])).1.map Prod.fst
    rw [runSteps_pre_go env args _ (by rw [hflag]; simp)]
    obtain ⟨r, t, hlog⟩ := runSteps_log_analysis_head env args
      ("enrichment" :: "tag_hygiene" :: "health_check_post" :: [])
    simp only [List.map_cons, hlog]
    simp

/-- C10 witness: pre subprocess failed and report unreadable, daily mode,
empty skip list, stop-on-error set — the run still reaches log_analysis. -/
theorem c10_unknown_health_no_halt_witness :
    step_health_check_pre demoEnvUnknown = .pre false "unknown" false ∧
    (run_maintenance demoEnvUnknown ⟨"daily", [], true⟩).2 ≠
      some "health_check_pre" ∧
    "log_analysis" ∈
      (run_maintenance demoEnvUnknown ⟨"daily", [], true⟩).1.map Prod.fst :=
  have h := c10_unknown_health_no_halt demoEnvUnknown ⟨"daily", [], true⟩ rfl
  ⟨h.1, h.2.1, h.2.2 rfl rfl⟩

/-- C6 witness: starting from the empty table (trivially key-unique), both a
seeded row and a suggested row keep the invariant; and against a table
already holding (topic, fafsa), a second seed insert with a different
canonical term and a suggested insert of "FAFSA" (lowercasing to the same
key) both leave the table exactly as it was. -/
theorem c6_idempotent_store_witness :
    keyUnique (upsert_seed [] "topic" "fafsa" "FAFSA") ∧
    keyUnique (insert_suggested [] "topic" "fafsa" "FAFSA" (1 / 2)) ∧
    upsert_seed [seededFafsaRow] "topic" "fafsa" "Financial Aid" = [seededFafsaRow] ∧
    insert_suggested [seededFafsaRow] "topic" "FAFSA" "Financial Aid" (1 / 2) =
      [seededFafsaRow] :=
  ⟨((c6_idempotent_store [] "topic" "fafsa" "FAFSA" "x" (1 / 2) 1).1
      (by simp [keyUnique])).1,
   ((c6_idempotent_store [] "topic" "fafsa" "FAFSA" "x" (1 / 2) 1).1
      (by simp [keyUnique])).2,
   (c6_idempotent_store [seededFafsaRow] "topic" "fafsa" "x" "Financial Aid"
      1 (1 / 2)).2.2.2.1 (by decide),
   (c6_idempotent_store [seededFafsaRow] "topic" "FAFSA" "x" "Financial Aid"
      1 (1 / 2)).2.2.2.2.1 (by decide)⟩

end Portal

